import Mathlib

/-!
Shallow embedding of the CreditX ecosystem shared core
(`services/shared/python`): the agent orchestrator with its HITL
(human-in-the-loop) gate (`core_agents.py`), the stream event bus
(`core_events.py`), the Dragonfly cache client with its circuit breaker
(`core_cache.py`), the PostgreSQL client's tenant-schema acquisition
(`core_database.py`), and the retry backoff computation
(`core_resilience.py`).

Python values that matter to the embedded code are modelled as follows:
JSON-representable values become `JsonV`; Python `None`-able strings
become `Option String`; a raised exception becomes `Except.error` carrying
`str(e)`; the side effects of a call (events published, cache writes) are
returned explicitly in an `Effects` record.
-/

/-- JSON-representable value, the image of Python dict/list/str/int/bool/None
after `json.dumps`/`json.loads` (which round-trip on this fragment;
the stdlib encoder itself is not re-modelled). -/
inductive JsonV where
  | null : JsonV
  | bool (b : Bool) : JsonV
  | num (n : Int) : JsonV
  | str (s : String) : JsonV
  | arr (xs : List JsonV) : JsonV
  | obj (fields : List (String × JsonV)) : JsonV

/-- Python truthiness of a JSON value (`if not task_data:` etc.):
`None`, `False`, `0`, `""`, `[]`, `{}` are falsy. -/
def pyTruthy : JsonV → Bool
  | .null => false
  | .bool b => b
  | .num n => n != 0
  | .str s => s != ""
  | .arr xs => !xs.isEmpty
  | .obj fs => !fs.isEmpty

/-- Python truthiness of an `Optional[str]`: `None` and `""` are falsy. -/
def pyTruthyStr : Option String → Bool
  | none => false
  | some s => s != ""

/-- Python truthiness of an `Optional[bool]` (`state.get("hitl_approved")`):
only `True` is truthy. -/
def pyTruthyOptBool : Option Bool → Bool
  | some true => true
  | _ => false

/-- Replace the value at the first occurrence of a key, keeping its position;
append when the key is absent (Python dict assignment order semantics). -/
def setField (k : String) (x : JsonV) : List (String × JsonV) → List (String × JsonV)
  | [] => [(k, x)]
  | p :: ps => if p.1 == k then (p.1, x) :: ps else p :: setField k x ps

/-- Python dict item assignment `d[k] = v`: replace the value at an existing
key in place, otherwise append the new pair.  On a non-dict JSON value the
assignment raises `TypeError`. -/
def objSetItem (v : JsonV) (k : String) (x : JsonV) : Except String JsonV :=
  match v with
  | .obj fs => .ok (.obj (setField k x fs))
  | _ => .error "TypeError"

/-! ## core_agents.py: enums and configuration -/

/-- `RiskLevel` (core_agents.py): risk level determining HITL requirements. -/
inductive RiskLevel where
  | low | medium | high | critical
deriving DecidableEq

/-- `Face` (core_agents.py): OS face determining agent visibility. -/
inductive Face where
  | consumer | partner | internal
deriving DecidableEq

/-- `.value` of a `Face` enum member. -/
def Face.val : Face → String
  | .consumer => "consumer"
  | .partner => "partner"
  | .internal => "internal"

/-- `AgentStatus` (core_agents.py): agent execution status. -/
inductive AgentStatus where
  | idle | validating | executing | waitingHitl | completed | failed
deriving DecidableEq

/-- `.value` of an `AgentStatus` enum member (`WAITING_HITL = "waiting_hitl"`). -/
def AgentStatus.val : AgentStatus → String
  | .idle => "idle"
  | .validating => "validating"
  | .executing => "executing"
  | .waitingHitl => "waiting_hitl"
  | .completed => "completed"
  | .failed => "failed"

/-- `AgentConfig` (core_agents.py): agent configuration from the registry.
`engine`, `agent_type`, `version` and the free-form `config` dict play no
role in the orchestration logic and are kept as plain strings / JSON. -/
structure AgentConfig where
  agent_id : String
  name : String
  engine : String
  agent_type : String
  faces : List Face
  risk_level : RiskLevel
  status : String := "active"
  version : String := "1.0.0"
  config : JsonV := .obj []

/-- `AgentConfig.is_visible_to`: `face in self.faces`. -/
def AgentConfig.is_visible_to (c : AgentConfig) (face : Face) : Bool :=
  c.faces.contains face

/-- `AgentConfig.requires_hitl`:
`self.risk_level in [RiskLevel.HIGH, RiskLevel.CRITICAL]`. -/
def AgentConfig.requires_hitl (c : AgentConfig) : Bool :=
  c.risk_level = RiskLevel.high || c.risk_level = RiskLevel.critical

/-- `AgentState` (core_agents.py): the TypedDict threaded through the agent
workflow.  Every path the claims exercise sets the fields it reads, so the
TypedDict is modelled as a structure whose defaults are the values
`state.get(...)` would produce for an absent key. -/
structure AgentState where
  task_id : String := ""
  agent_id : String := ""
  tenant_id : Option String := none
  user_id : Option String := none
  face : String := ""
  input_data : JsonV := .obj []
  context : JsonV := .obj []
  messages : List JsonV := []
  output : Option JsonV := none
  status : String := ""
  error : Option String := none
  hitl_required : Bool := false
  hitl_approved : Option Bool := none
  hitl_response : Option String := none
  started_at : String := ""
  completed_at : Option String := none

/-- `AgentTask` (core_agents.py): one agent execution request. -/
structure AgentTask where
  task_id : String
  agent_id : String
  tenant_id : Option String
  user_id : Option String
  face : Face
  input_data : JsonV
  context : JsonV := .obj []
  status : AgentStatus := .idle
  output : Option JsonV := none
  error : Option String := none

/-- `AgentTask.to_state` (core_agents.py): convert to workflow state; the
wall-clock `datetime.utcnow().isoformat()` is passed in as `now`. -/
def AgentTask.to_state (t : AgentTask) (now : String) : AgentState :=
  { task_id := t.task_id
    agent_id := t.agent_id
    tenant_id := t.tenant_id
    user_id := t.user_id
    face := t.face.val
    input_data := t.input_data
    context := t.context
    messages := []
    output := none
    status := t.status.val
    error := none
    hitl_required := false
    hitl_approved := none
    hitl_response := none
    started_at := now
    completed_at := none }

/-! ## core_events.py: Event and stream bus -/

/-- `Event` (core_events.py): standard event structure.  `event_id` and
`timestamp` are produced by `uuid.uuid4()` / `datetime.utcnow()` default
factories; the model leaves them as caller-supplied strings (defaulting to
`""`), since no embedded operation inspects them. -/
structure Event where
  event_type : String
  payload : JsonV
  event_id : String := ""
  timestamp : String := ""
  source_service : String := ""
  tenant_id : Option String := none
  correlation_id : Option String := none
  metadata : JsonV := .obj []

/-- One Redis stream entry as written by `xadd`.  All redis field values are
strings; `payload` and `metadata` are stored as their `json.dumps` text, which
`json.loads` inverts on the `JsonV` fragment, so the model keeps the parsed
value. -/
structure StreamData where
  event_id : String
  event_type : String
  payload : JsonV
  timestamp : String
  source_service : String
  tenant_id : String
  correlation_id : String
  metadata : JsonV

/-- `Event.to_stream_data` (core_events.py): `self.tenant_id or ""` and
`self.correlation_id or ""` turn `None` into the empty string. -/
def Event.to_stream_data (e : Event) : StreamData :=
  { event_id := e.event_id
    event_type := e.event_type
    payload := e.payload
    timestamp := e.timestamp
    source_service := e.source_service
    tenant_id := e.tenant_id.getD ""
    correlation_id := e.correlation_id.getD ""
    metadata := e.metadata }

/-- `Event.from_stream_data` (core_events.py): `decoded.get("tenant_id") or
None` turns a falsy (empty) string back into `None`, likewise for
`correlation_id`. -/
def Event.from_stream_data (d : StreamData) : Event :=
  { event_id := d.event_id
    event_type := d.event_type
    payload := d.payload
    timestamp := d.timestamp
    source_service := d.source_service
    tenant_id := if d.tenant_id == "" then none else some d.tenant_id
    correlation_id := if d.correlation_id == "" then none else some d.correlation_id
    metadata := d.metadata }

/-- The in-place mutation `event.source_service = self.service_name` performed
by `EventBus.publish` (core_events.py line 157) before serialization. -/
def publishSetSource (serviceName : String) (e : Event) : Event :=
  { e with source_service := serviceName }

/-- `EventBus.publish` effect on a stream (modelled as the list of entries in
append order): stamp the bus's service name on the event, `xadd` its stream
form, and trim to the most recent `maxlen` entries (redis trims
approximately; the model trims exactly, and the claims only use the
non-trimming regime). -/
def publishToStream (serviceName : String) (s : List StreamData) (e : Event)
    (maxlen : Nat := 10000) : List StreamData :=
  let s2 := s ++ [(publishSetSource serviceName e).to_stream_data]
  s2.drop (s2.length - maxlen)

/-- `EventBus.replay` over the full id range (`start_id="0"`, `end_id="+"`):
`xrange` returns the first `count` entries, each parsed by
`Event.from_stream_data`. -/
def replayFull (s : List StreamData) (count : Nat := 100) : List Event :=
  (s.take count).map Event.from_stream_data

/-- One pass of the `consume` loop body in `EventBus.subscribe`
(core_events.py) over a fetched batch: for each `(message_id, data)` entry,
parse and run the handler inside a `try`; `xack` the entry only when the
handler returns without error, otherwise log and move to the next entry.
Returns the list of acknowledged message ids. -/
def consumeAcked (handler : Event → Except String Unit) :
    List (String × StreamData) → List String
  | [] => []
  | entry :: rest =>
      match handler (Event.from_stream_data entry.2) with
      | .ok _ => entry.1 :: consumeAcked handler rest
      | .error _ => consumeAcked handler rest

/-- The outer `while True` of the consume loop across successive fetched
batches: a handler failure inside a batch never leaves the loop, so every
batch is processed. -/
def consumeLoop (handler : Event → Except String Unit) :
    List (List (String × StreamData)) → List String
  | [] => []
  | batch :: rest => consumeAcked handler batch ++ consumeLoop handler rest

/-! ## core_agents.py: workflow -/

/-- `.value` of a `RiskLevel` enum member. -/
def RiskLevel.val : RiskLevel → String
  | .low => "low"
  | .medium => "medium"
  | .high => "high"
  | .critical => "critical"

mutual

/-- Python `str(...)` of a JSON-representable value (used for the
`input_summary` payload field in `check_hitl`). -/
def pyRepr : JsonV → String
  | .null => "None"
  | .bool true => "True"
  | .bool false => "False"
  | .num n => toString n
  | .str s => "\x27" ++ s ++ "\x27"
  | .arr xs => "[" ++ pyReprItems xs ++ "]"
  | .obj fs => "\x7b" ++ pyReprFields fs ++ "\x7d"

/-- Comma-separated reprs of list items. -/
def pyReprItems : List JsonV → String
  | [] => ""
  | [x] => pyRepr x
  | x :: xs => pyRepr x ++ ", " ++ pyReprItems xs

/-- Comma-separated reprs of dict entries. -/
def pyReprFields : List (String × JsonV) → String
  | [] => ""
  | [p] => "\x27" ++ p.1 ++ "\x27: " ++ pyRepr p.2
  | p :: ps => "\x27" ++ p.1 ++ "\x27: " ++ pyRepr p.2 ++ ", " ++ pyReprFields ps

end

/-- Side effects of one orchestrator/agent call: events published (stream
name, event as stamped by its bus) and cache writes (key, value, ttl
seconds), in call order. -/
structure Effects where
  published : List (String × Event) := []
  cacheWrites : List (String × JsonV × Nat) := []

/-- Append effect logs in call order. -/
def Effects.merge (a b : Effects) : Effects :=
  { published := a.published ++ b.published
    cacheWrites := a.cacheWrites ++ b.cacheWrites }

/-- `BaseAgent.check_hitl` (core_agents.py): when the config requires HITL,
mark the state `waiting_hitl` and publish a `notification.requested` event to
the `agent-hitl` stream (via the agent's bus, whose service name is
`agent-{agent_id}`); otherwise mark HITL not required and pre-approved. -/
def check_hitl (cfg : AgentConfig) (st : AgentState) : AgentState × Effects :=
  if cfg.requires_hitl then
    let st2 := { st with hitl_required := true, status := AgentStatus.waitingHitl.val }
    let ev : Event :=
      { event_type := "notification.requested"
        payload := .obj
          [ ("task_id", .str st.task_id)
          , ("agent_id", .str cfg.agent_id)
          , ("agent_name", .str cfg.name)
          , ("risk_level", .str cfg.risk_level.val)
          , ("input_summary", .str ((pyRepr st.input_data).take 500)) ]
        tenant_id := st.tenant_id }
    (st2, { published := [("agent-hitl", publishSetSource ("agent-" ++ cfg.agent_id) ev)] })
  else
    ({ st with hitl_required := false, hitl_approved := some true }, {})

/-- `BaseAgent.finalize` (core_agents.py): stamp `completed_at`, set the
terminal status from the truthiness of `error`, and publish the lifecycle
event to `agent-tasks`. -/
def finalize (cfg : AgentConfig) (st : AgentState) (now : String) : AgentState × Effects :=
  let st2 :=
    { st with completed_at := some now
              status := if pyTruthyStr st.error then AgentStatus.failed.val
                        else AgentStatus.completed.val }
  let ev : Event :=
    { event_type := if pyTruthyStr st.error then "agent.task.failed"
                    else "agent.task.completed"
      payload := .obj
        [ ("task_id", .str st.task_id)
        , ("agent_id", .str cfg.agent_id)
        , ("status", .str st2.status)
        , ("has_output", .bool st.output.isSome) ]
      tenant_id := st.tenant_id }
  (st2, { published := [("agent-tasks", publishSetSource ("agent-" ++ cfg.agent_id) ev)] })

/-- `BaseAgent.run` (core_agents.py): validate → check HITL → execute →
finalize.  The agent subclass hooks `validate_input` and `execute` are the
function parameters `validate` and `exec`; `Except.error msg` models the hook
raising an exception with `str(e) = msg`, which the outer `try` converts into
a failed finalization.  The wall clock is the `now` parameter. -/
def runAgent (cfg : AgentConfig)
    (validate exec : AgentState → Except String AgentState)
    (task : AgentTask) (now : String) : AgentState × Effects :=
  let st0 := { task.to_state now with status := AgentStatus.validating.val }
  match validate st0 with
  | .error e =>
      finalize cfg { st0 with error := some e, status := AgentStatus.failed.val } now
  | .ok st1 =>
      if pyTruthyStr st1.error then
        finalize cfg st1 now
      else
        let hres := check_hitl cfg st1
        let st2 := hres.1
        if st2.hitl_required && !(pyTruthyOptBool st2.hitl_approved) then
          (st2, hres.2)
        else
          let st3 := { st2 with status := AgentStatus.executing.val }
          match exec st3 with
          | .error e =>
              let fres := finalize cfg
                { st3 with error := some e, status := AgentStatus.failed.val } now
              (fres.1, hres.2.merge fres.2)
          | .ok st4 =>
              let fres := finalize cfg st4 now
              (fres.1, hres.2.merge fres.2)

/-- A registered agent instance: the subclass hooks plus the `AgentConfig` it
was constructed with (`agent_class(config)` in `AgentOrchestrator.initialize`). -/
structure AgentImpl where
  config : AgentConfig
  validate : AgentState → Except String AgentState
  exec : AgentState → Except String AgentState

/-- `AgentOrchestrator` registries: `_agents` (instances) and `_configs`
(rows loaded from `agent_registry`), both keyed by agent id. -/
structure Orchestrator where
  agents : List (String × AgentImpl)
  configs : List (String × AgentConfig)

/-- `AgentOrchestrator.execute` (core_agents.py): unknown agent id returns a
failed state with an `Agent not found` error; a config not visible to the
caller's face returns a failed state with an `Agent not accessible` error;
otherwise a fresh task is built and run.  `freshId` stands for the generated
`uuid.uuid4()` task id and `now` for the wall clock. -/
def Orchestrator.execute (o : Orchestrator) (agent_id : String)
    (input_data : JsonV) (tenant_id user_id : Option String) (face : Face)
    (context : JsonV) (freshId : String) (now : String) : AgentState × Effects :=
  match o.agents.lookup agent_id with
  | none =>
      ({ task_id := freshId, agent_id := agent_id
         status := AgentStatus.failed.val
         error := some ("Agent not found: " ++ agent_id)
         started_at := now }, {})
  | some agent =>
      let denied := match o.configs.lookup agent_id with
        | some cfg => !cfg.is_visible_to face
        | none => false
      if denied then
        ({ task_id := freshId, agent_id := agent_id
           status := AgentStatus.failed.val
           error := some ("Agent not accessible from " ++ face.val ++ " face")
           started_at := now }, {})
      else
        runAgent agent.config agent.validate agent.exec
          { task_id := freshId, agent_id := agent_id, tenant_id := tenant_id
            user_id := user_id, face := face, input_data := input_data
            context := if pyTruthy context then context else .obj [] } now

/-! ## core_cache.py: circuit breaker and cache client -/

/-- Circuit breaker state (closed / open / half-open). -/
inductive BreakerState where
  | closed | opened | halfOpen
deriving DecidableEq

/-- Modelled third-party dependency (`pybreaker.CircuitBreaker`, used by
core_cache.py and described in the spec): per-breaker configuration and
mutable state.  Time is an abstract tick counter. -/
structure Breaker where
  fail_max : Nat := 5
  reset_timeout : Nat := 60
  state : BreakerState := .closed
  fail_counter : Nat := 0
  opened_at : Nat := 0

/-- Whether a call is let through to the wrapped operation at time `now`:
closed and half-open pass; open passes only once `reset_timeout` has elapsed
since the breaker opened (the half-open trial), otherwise the call raises
`CircuitBreakerError` without attempting the operation. -/
def Breaker.callAllowed (b : Breaker) (now : Nat) : Bool :=
  match b.state with
  | .closed => true
  | .halfOpen => true
  | .opened => b.opened_at + b.reset_timeout ≤ now

/-- Breaker transition on a successful wrapped call: close and reset the
consecutive-failure counter. -/
def Breaker.onSuccess (b : Breaker) : Breaker :=
  { b with state := .closed, fail_counter := 0 }

/-- Breaker transition on a failed wrapped call: count it and open once
`fail_max` consecutive failures are reached (a half-open trial failure
reopens immediately). -/
def Breaker.onFailure (b : Breaker) (now : Nat) : Breaker :=
  if b.state = .halfOpen || b.fail_counter + 1 ≥ b.fail_max then
    { b with state := .opened, fail_counter := b.fail_counter + 1, opened_at := now }
  else
    { b with fail_counter := b.fail_counter + 1 }

/-- `DragonflyCache` (core_cache.py) with a healthy backing store: the key
space is an association list of (full key, stored JSON value, ttl written);
single-key operations route through the one named breaker.  Metric counters
mirror `CacheMetrics` (latencies are not modelled). -/
structure CacheModel where
  pfx : String := ""
  store : List (String × JsonV × Nat) := []
  breaker : Breaker := {}
  hits : Nat := 0
  misses : Nat := 0
  errors : Nat := 0

/-- `DragonflyCache._key`: apply the configured key prefix. -/
def CacheModel.fullKey (c : CacheModel) (key : String) : String :=
  c.pfx ++ key

/-- Store lookup for the underlying client `get` (value only). -/
def storeLookup : List (String × JsonV × Nat) → String → Option JsonV
  | [], _ => none
  | p :: ps, key => if p.1 == key then some p.2.1 else storeLookup ps key

/-- Underlying client `setex`: replace the value at an existing key, else
append. -/
def storeSet : List (String × JsonV × Nat) → String → JsonV → Nat →
    List (String × JsonV × Nat)
  | [], key, v, ttl => [(key, v, ttl)]
  | p :: ps, key, v, ttl =>
      if p.1 == key then (p.1, v, ttl) :: ps else p :: storeSet ps key v ttl

/-- Underlying client `delete`. -/
def storeDelete (store : List (String × JsonV × Nat)) (key : String) :
    List (String × JsonV × Nat) :=
  store.filter (fun p => p.1 != key)

/-- `DragonflyCache.get` (core_cache.py): returns
(value-or-miss, updated cache, whether the underlying client op was
attempted).  A `CircuitBreakerError` is caught, counted as an error and
converted into a miss (`None`); with a healthy store the attempted branch
never raises and the stored JSON always decodes. -/
def cacheGet (c : CacheModel) (now : Nat) (key : String) :
    Option JsonV × CacheModel × Bool :=
  if c.breaker.callAllowed now then
    match storeLookup c.store (c.fullKey key) with
    | none =>
        (none, { c with breaker := c.breaker.onSuccess, misses := c.misses + 1 }, true)
    | some v =>
        (some v, { c with breaker := c.breaker.onSuccess, hits := c.hits + 1 }, true)
  else
    (none, { c with errors := c.errors + 1 }, false)

/-- `DragonflyCache.set` (core_cache.py): returns
(success flag, updated cache, whether the underlying client op was
attempted); `CircuitBreakerError` is caught, counted, and turned into
`False`. -/
def cacheSet (c : CacheModel) (now : Nat) (key : String) (v : JsonV)
    (ttl : Nat := 3600) : Bool × CacheModel × Bool :=
  if c.breaker.callAllowed now then
    (true,
     { c with store := storeSet c.store (c.fullKey key) v ttl
              breaker := c.breaker.onSuccess }, true)
  else
    (false, { c with errors := c.errors + 1 }, false)

/-- `DragonflyCache.delete` (core_cache.py): returns
(success flag, updated cache, whether the underlying client op was
attempted); `CircuitBreakerError` is caught and turned into `False` (this
branch logs but does not touch the metrics). -/
def cacheDelete (c : CacheModel) (now : Nat) (key : String) :
    Bool × CacheModel × Bool :=
  if c.breaker.callAllowed now then
    (true,
     { c with store := storeDelete c.store (c.fullKey key)
              breaker := c.breaker.onSuccess }, true)
  else
    (false, c, false)

/-- JSON image of an `Optional[str]` under `json.dumps`. -/
def optStrJson : Option String → JsonV
  | none => .null
  | some s => .str s

/-- `AgentOrchestrator.approve_hitl` (core_agents.py): look up
`hitl:{task_id}` in the cache; a falsy result returns `False`.  Otherwise
record the decision on the cached dict (a `TypeError` if the cached JSON is
not a dict propagates as `Except.error`), write it back with a fresh one-hour
TTL (the `set` result is ignored), publish the decision event on
`agent-hitl-response` via the `orchestrator` bus, and return `True`. -/
def approveHitl (c : CacheModel) (now : Nat) (task_id : String)
    (approved : Bool) (response : Option String) :
    Except String (Bool × CacheModel × Effects) :=
  let g := cacheGet c now ("hitl:" ++ task_id)
  match g.1 with
  | none => .ok (false, g.2.1, {})
  | some td =>
    if !pyTruthy td then .ok (false, g.2.1, {})
    else
      match objSetItem td "hitl_approved" (.bool approved) with
      | .error e => .error e
      | .ok v1 =>
        match objSetItem v1 "hitl_response" (optStrJson response) with
        | .error e => .error e
        | .ok v2 =>
          let s := cacheSet g.2.1 now ("hitl:" ++ task_id) v2 3600
          let ev : Event :=
            { event_type := "agent.task.completed"
              payload := .obj
                [ ("task_id", .str task_id)
                , ("approved", .bool approved)
                , ("response", optStrJson response) ] }
          .ok (true, s.2.1,
            { published := [("agent-hitl-response", publishSetSource "orchestrator" ev)]
              cacheWrites := if s.1 then [("hitl:" ++ task_id, v2, 3600)] else [] })

/-! ## core_database.py: tenant schema on acquire -/

/-- A pooled PostgreSQL connection's session state: its current
`search_path`.  Session settings persist when the connection is released to
the pool and handed out again. -/
structure DbConn where
  search_path : String
deriving DecidableEq

/-- `DatabaseClient.acquire` (core_database.py): the effect on the acquired
connection's session before it is yielded to the caller.  Only a truthy
tenant id issues `SET search_path TO tenant_{tenant_id}, public`; `None` (or
an empty string) leaves the connection's previous search path untouched. -/
def acquireSetPath (conn : DbConn) (tenant_id : Option String) : DbConn :=
  match tenant_id with
  | some t => if t != "" then { search_path := "tenant_" ++ t ++ ", public" } else conn
  | none => conn

/-! ## core_resilience.py: retry backoff -/

/-- `RetryConfig` (core_resilience.py); float fields are modelled as
rationals. -/
structure RetryConfig where
  max_attempts : Nat := 3
  base_delay_seconds : ℚ := 1
  max_delay_seconds : ℚ := 30
  exponential_base : ℚ := 2
  jitter : Bool := true

/-- `calculate_delay` (core_resilience.py): exponential backoff capped by
`max_delay_seconds`, then — when jitter is on — scaled by `0.5 +
random.random()`, whose sample `r` ranges over `[0, 1)`. -/
def calculate_delay (attempt : Nat) (cfg : RetryConfig) (r : ℚ) : ℚ :=
  let d := min (cfg.base_delay_seconds * cfg.exponential_base ^ attempt)
               cfg.max_delay_seconds
  if cfg.jitter then d * (1/2 + r) else d

/-! ## Theorems -/

/-- C10: `EventBus.publish` overwrites the caller's event's `source_service`
field with the bus's configured service name before appending, leaves every
other field of the event unchanged, and the appended stream entry carries the
bus name — a caller-supplied `source_service` value is discarded and never
reaches the stream. -/
theorem publish_source_service_frame :
    (∀ sn (e : Event), publishSetSource sn e =
      { event_type := e.event_type, payload := e.payload, event_id := e.event_id
        timestamp := e.timestamp, source_service := sn, tenant_id := e.tenant_id
        correlation_id := e.correlation_id, metadata := e.metadata })
    ∧ (∀ sn (e : Event), ((publishSetSource sn e).to_stream_data).source_service = sn)
    ∧ (∀ sn s (e : Event) x maxlen,
        publishToStream sn s { e with source_service := x } maxlen =
        publishToStream sn s e maxlen) :=
  ⟨fun _ _ => rfl, fun _ _ => rfl, fun _ _ _ _ _ => rfl⟩

/-- C8: in the subscription consume loop, an entry is acknowledged exactly
when its handler returns without error (ack happens only after handler
success); failed entries are skipped but processing continues, and the loop
goes on to later batches, so a single handler failure never terminates the
subscription. -/
theorem subscribe_ack_iff_handler_ok :
    (∀ handler (entries : List (String × StreamData)),
        consumeAcked handler entries =
          (entries.filter (fun p =>
            match handler (Event.from_stream_data p.2) with
            | .ok _ => true
            | .error _ => false)).map Prod.fst)
    ∧ (∀ handler (batches : List (List (String × StreamData))),
        consumeLoop handler batches = (batches.map (consumeAcked handler)).flatten) := by
  constructor
  · intro handler entries
    induction entries with
    | nil => simp [consumeAcked]
    | cons p ps ih =>
        cases h : handler (Event.from_stream_data p.2) <;>
          simp [consumeAcked, h, ih, List.filter]
  · intro handler batches
    induction batches with
    | nil => simp [consumeLoop]
    | cons b bs ih => simp [consumeLoop, ih]

/-- C5 counterexample: with jitter enabled, base 1, exponential base 2 and
`maxDelay = 1`, attempt 0 with the jitter sample `r = 9/10 ∈ [0, 1)` gives a
delay of `7/5`, which exceeds `maxDelay` — refuting both the claimed jitter
factor range `[0.5, 1.0]` and the claim that the computed delay never exceeds
`maxDelay`. -/
theorem calculate_delay_claim_false :
    calculate_delay 0
      { base_delay_seconds := 1, max_delay_seconds := 1
        exponential_base := 2, jitter := true } (9/10) = 7/5
    ∧ ¬ (calculate_delay 0
      { base_delay_seconds := 1, max_delay_seconds := 1
        exponential_base := 2, jitter := true } (9/10) ≤ (1 : ℚ)) := by
  constructor <;> norm_num [calculate_delay]

/-- C5 (amended): without jitter the delay is exactly
`min (base * exponentialBase ^ attempt) maxDelay` and never exceeds
`maxDelay`; with jitter it is that value scaled by `0.5 + r` with the random
sample `r` uniform in `[0, 1)` — a factor in `[0.5, 1.5)`, not `[0.5, 1.0]` —
so (for a nonnegative capped base value) the jittered delay lies between half
the capped value and `1.5 × maxDelay`, and can exceed `maxDelay`. -/
theorem calculate_delay_amended (attempt : Nat) (cfg : RetryConfig) (r : ℚ)
    (h0 : 0 ≤ r) (h1 : r < 1) :
    (cfg.jitter = false →
       calculate_delay attempt cfg r =
         min (cfg.base_delay_seconds * cfg.exponential_base ^ attempt)
           cfg.max_delay_seconds
       ∧ calculate_delay attempt cfg r ≤ cfg.max_delay_seconds)
    ∧ (cfg.jitter = true →
       calculate_delay attempt cfg r =
         min (cfg.base_delay_seconds * cfg.exponential_base ^ attempt)
           cfg.max_delay_seconds * (1/2 + r)
       ∧ (0 ≤ min (cfg.base_delay_seconds * cfg.exponential_base ^ attempt)
             cfg.max_delay_seconds →
          min (cfg.base_delay_seconds * cfg.exponential_base ^ attempt)
              cfg.max_delay_seconds / 2 ≤ calculate_delay attempt cfg r
          ∧ calculate_delay attempt cfg r ≤ 3/2 * cfg.max_delay_seconds)) := by
  set d := min (cfg.base_delay_seconds * cfg.exponential_base ^ attempt)
    cfg.max_delay_seconds with hd
  have hdm : d ≤ cfg.max_delay_seconds := min_le_right _ _
  constructor
  · intro hj
    constructor
    · simp [calculate_delay, hj, ← hd]
    · simp only [calculate_delay, hj, ← hd, if_false, Bool.false_eq_true]
      exact hdm
  · intro hj
    have heq : calculate_delay attempt cfg r = d * (1/2 + r) := by
      simp [calculate_delay, hj, ← hd]
    refine ⟨heq, fun hdpos => ⟨?_, ?_⟩⟩
    · rw [heq]
      calc d / 2 = d * (1/2) := by ring
      _ ≤ d * (1/2 + r) := by
          apply mul_le_mul_of_nonneg_left _ hdpos
          linarith
    · rw [heq]
      calc d * (1/2 + r) ≤ d * (3/2) := by
            apply mul_le_mul_of_nonneg_left _ hdpos
            linarith
      _ ≤ cfg.max_delay_seconds * (3/2) := by
            apply mul_le_mul_of_nonneg_right hdm
            norm_num
      _ = 3/2 * cfg.max_delay_seconds := by ring

/-- C5 amended witness: the default `RetryConfig` (jitter on) at attempt 0
with sample `r = 1/2` gives delay `min (1 * 2^0) 30 * (1/2 + 1/2) = 1`. -/
theorem calculate_delay_amended_witness :
    calculate_delay 0 ({} : RetryConfig) (1/2) = 1 := by
  have h := calculate_delay_amended 0 ({} : RetryConfig) (1/2)
    (by norm_num) (by norm_num)
  rw [(h.2 rfl).1]
  norm_num

/-- C4 counterexample: a connection previously acquired for tenant `a`
(search path `tenant_a, public`), released to the pool, and then acquired
with no tenant id is handed to the caller with its search path untouched —
still carrying the previous acquisition's tenant schema.  The handed-over
session state is therefore not a function of the caller-supplied tenant id
alone, refuting "the search-path is set according to the caller-supplied
tenant id" for every acquisition. -/
theorem acquire_tenant_schema_claim_false :
    acquireSetPath (acquireSetPath ⟨"public"⟩ (some "a")) none =
      acquireSetPath ⟨"public"⟩ (some "a")
    ∧ (acquireSetPath (acquireSetPath ⟨"public"⟩ (some "a")) none).search_path =
        "tenant_a, public"
    ∧ acquireSetPath ⟨"tenant_a, public"⟩ none ≠ acquireSetPath ⟨"public"⟩ none := by
  refine ⟨rfl, rfl, ?_⟩
  decide

/-- C4 (amended): an acquisition that supplies a nonempty tenant id has the
connection's search path set to `tenant_{tenantId}, public` before the
connection is handed over; an acquisition with no tenant id (or an empty
one — both falsy in `if tenant_id:`) leaves the connection's previous search
path in place, so only tenant-scoped acquisitions re-establish isolation. -/
theorem acquire_tenant_schema_amended (conn : DbConn) (t : String) (h : t ≠ "") :
    (acquireSetPath conn (some t)).search_path = "tenant_" ++ t ++ ", public"
    ∧ acquireSetPath conn none = conn
    ∧ acquireSetPath conn (some "") = conn := by
  refine ⟨?_, rfl, rfl⟩
  simp [acquireSetPath, h]

/-- C4 amended witness: acquiring `⟨"public"⟩` for tenant `a` hands over
search path `tenant_a, public`. -/
theorem acquire_tenant_schema_amended_witness :
    (acquireSetPath ⟨"public"⟩ (some "a")).search_path = "tenant_a, public" :=
  (acquire_tenant_schema_amended ⟨"public"⟩ "a" (by decide)).1

/-- C9: when the cache's circuit breaker is open (and its reset timeout has
not yet elapsed, i.e. the breaker is not yet eligible for a half-open trial),
`get` returns a miss (`none`), `set` and `delete` return `false`, none of the
three raises (they are total functions returning those values), the
underlying client operation is not attempted (third component `false`), and
the backing store is untouched. -/
theorem cache_breaker_open_degrades (c : CacheModel) (now : Nat) (key : String)
    (v : JsonV) (ttl : Nat)
    (hState : c.breaker.state = .opened)
    (hTime : now < c.breaker.opened_at + c.breaker.reset_timeout) :
    (cacheGet c now key).1 = none ∧ (cacheGet c now key).2.2 = false
    ∧ ((cacheGet c now key).2.1).store = c.store
    ∧ (cacheSet c now key v ttl).1 = false ∧ (cacheSet c now key v ttl).2.2 = false
    ∧ ((cacheSet c now key v ttl).2.1).store = c.store
    ∧ (cacheDelete c now key).1 = false ∧ (cacheDelete c now key).2.2 = false
    ∧ ((cacheDelete c now key).2.1).store = c.store := by
  have hAllow : c.breaker.callAllowed now = false := by
    rw [Breaker.callAllowed, hState]
    simp
    omega
  simp [cacheGet, cacheSet, cacheDelete, hAllow]

/-- C9 witness: a cache whose breaker opened at tick 0 with a 60-tick reset
timeout degrades `get`/`set`/`delete` at tick 0. -/
theorem cache_breaker_open_degrades_witness :
    (cacheGet { breaker := { state := .opened, opened_at := 0 } } 0 "k").1 = none
    ∧ (cacheSet { breaker := { state := .opened, opened_at := 0 } } 0 "k" .null 60).1
        = false
    ∧ (cacheDelete { breaker := { state := .opened, opened_at := 0 } } 0 "k").1
        = false := by
  have h := cache_breaker_open_degrades
    { breaker := { state := .opened, opened_at := 0 } } 0 "k" .null 60
    rfl (by decide)
  exact ⟨h.1, h.2.2.2.1, h.2.2.2.2.2.2.1⟩

/-- C6 counterexample: an event published with `tenant_id = some ""` is read
back by `replay` with `tenant_id = none` (the `or`-chains in
`to_stream_data`/`from_stream_data` collapse the falsy empty string to
`None`), so the replayed entry's `tenantId` is not identical to the published
event's. -/
theorem event_roundtrip_claim_false :
    ((replayFull (publishToStream "svc" []
        { event_type := "threat.detected", payload := .obj []
          tenant_id := some "" }) ).map Event.tenant_id) = [none]
    ∧ (some "" : Option String) ≠ (none : Option String) := by
  exact ⟨rfl, by decide⟩

/-- C6 (amended): publishing an Event and replaying the stream over the full
id range (with the stream short enough that `maxlen` trimming and the replay
`count` do not cut it off) yields an entry with identical `eventType`,
`payload`, and — whenever the published `tenantId` is not the empty string —
identical `tenantId`; an empty-string `tenantId` is read back as `None`. -/
theorem event_roundtrip_amended (sn : String) (s : List StreamData) (e : Event)
    (maxlen count : Nat) (hM : s.length + 1 ≤ maxlen) (hC : s.length + 1 ≤ count)
    (hT : e.tenant_id ≠ some "") :
    Event.from_stream_data (publishSetSource sn e).to_stream_data
        ∈ replayFull (publishToStream sn s e maxlen) count
    ∧ (Event.from_stream_data (publishSetSource sn e).to_stream_data).event_type
        = e.event_type
    ∧ (Event.from_stream_data (publishSetSource sn e).to_stream_data).payload
        = e.payload
    ∧ (Event.from_stream_data (publishSetSource sn e).to_stream_data).tenant_id
        = e.tenant_id := by
  have hps : publishToStream sn s e maxlen
      = s ++ [(publishSetSource sn e).to_stream_data] := by
    simp only [publishToStream]
    have h0 : (s ++ [(publishSetSource sn e).to_stream_data]).length - maxlen = 0 := by
      simp only [List.length_append, List.length_cons, List.length_nil]
      omega
    rw [h0, List.drop_zero]
  refine ⟨?_, rfl, rfl, ?_⟩
  · rw [hps]
    simp only [replayFull]
    have htake : (s ++ [(publishSetSource sn e).to_stream_data]).take count
        = s ++ [(publishSetSource sn e).to_stream_data] := by
      apply List.take_of_length_le
      simp only [List.length_append, List.length_cons, List.length_nil]
      omega
    rw [htake]
    exact List.mem_map_of_mem _ (by simp)
  · cases h : e.tenant_id with
    | none => simp [Event.from_stream_data, Event.to_stream_data, publishSetSource, h]
    | some t =>
        have ht : t ≠ "" := by
          intro h2
          exact hT (by rw [h, h2])
        simp [Event.from_stream_data, Event.to_stream_data, publishSetSource, h, ht]

/-- C6 amended witness: a `threat.detected` event with payload
`{"sev": 5}` and tenant `t1` published to an empty stream round-trips with
identical fields. -/
theorem event_roundtrip_amended_witness :
    Event.from_stream_data (publishSetSource "svc"
        { event_type := "threat.detected", payload := .obj [("sev", .num 5)]
          tenant_id := some "t1" }).to_stream_data
      ∈ replayFull (publishToStream "svc" []
        { event_type := "threat.detected", payload := .obj [("sev", .num 5)]
          tenant_id := some "t1" } 10000) 100
    ∧ (Event.from_stream_data (publishSetSource "svc"
        { event_type := "threat.detected", payload := .obj [("sev", .num 5)]
          tenant_id := some "t1" }).to_stream_data).tenant_id = some "t1" := by
  have h := event_roundtrip_amended "svc" []
    { event_type := "threat.detected", payload := .obj [("sev", .num 5)]
      tenant_id := some "t1" } 10000 100 (by norm_num) (by norm_num) (by decide)
  exact ⟨h.1, h.2.2.2⟩

/-- Rewriting a key always makes it readable back: `setex` then `get`. -/
theorem storeLookup_storeSet_self (st : List (String × JsonV × Nat)) (k : String)
    (v : JsonV) (t : Nat) : storeLookup (storeSet st k v t) k = some v := by
  induction st with
  | nil => simp [storeSet, storeLookup]
  | cons p ps ih =>
      cases h : p.1 == k <;> simp [storeSet, storeLookup, h, ih]

/-- Dict assignment never empties a dict. -/
theorem setField_isEmpty_false (k : String) (x : JsonV) (fs : List (String × JsonV)) :
    (setField k x fs).isEmpty = false := by
  cases fs with
  | nil => simp [setField]
  | cons p ps =>
      simp only [setField]
      split <;> simp

/-- A breaker that just recorded a success is closed, so its next call is let
through. -/
theorem callAllowed_onSuccess (m : Breaker) (n : Nat) :
    (Breaker.onSuccess m).callAllowed n = true := rfl

/-- C2 counterexample: with a healthy cache holding a paused-task entry under
`hitl:t1`, `approve_hitl` returns `True`, and — because it re-writes the entry
with a fresh TTL instead of deleting it — a second call on the same task id
returns `True` again, refuting "the second call returns false". -/
theorem approve_hitl_claim_false :
    (approveHitl { store := [("hitl:t1", .obj [("task_id", .str "t1")], 3600)] }
        0 "t1" true none).toOption.map (fun x => x.1) = some true
    ∧ ((approveHitl { store := [("hitl:t1", .obj [("task_id", .str "t1")], 3600)] }
        0 "t1" true none).toOption.bind
        (fun x => (approveHitl x.2.1 1 "t1" true none).toOption.map (fun y => y.1)))
        = some true := by
  exact ⟨rfl, rfl⟩

/-- C2 (amended): `approve_hitl` returns `False` exactly when the cache
lookup of `hitl:{taskId}` yields nothing (or a falsy value) — covering
"already expired or never existed"; but a successful call re-writes the entry
under the same key with a fresh one-hour TTL rather than consuming it, so a
second call (with any decisions, against a healthy closed-breaker cache)
returns `True` again, not `False`. -/
theorem approve_hitl_amended :
    (∀ (c : CacheModel) (now : Nat) (tid : String) (a : Bool) (r : Option String),
       (cacheGet c now ("hitl:" ++ tid)).1 = none →
       approveHitl c now tid a r = .ok (false, (cacheGet c now ("hitl:" ++ tid)).2.1, {}))
    ∧ (∀ (c : CacheModel) (now : Nat) (tid : String) (a : Bool) (r : Option String)
         (td : JsonV),
       (cacheGet c now ("hitl:" ++ tid)).1 = some td → pyTruthy td = false →
       approveHitl c now tid a r = .ok (false, (cacheGet c now ("hitl:" ++ tid)).2.1, {}))
    ∧ (∀ (c : CacheModel) (now now2 : Nat) (tid : String) (a a2 : Bool)
         (r r2 : Option String) (fs : List (String × JsonV)),
       c.breaker.state = .closed →
       storeLookup c.store (c.fullKey ("hitl:" ++ tid)) = some (.obj fs) →
       fs ≠ [] →
       (approveHitl c now tid a r).toOption.map (fun x => x.1) = some true
       ∧ ((approveHitl c now tid a r).toOption.bind
           (fun x => (approveHitl x.2.1 now2 tid a2 r2).toOption.map (fun y => y.1)))
           = some true) := by
  refine ⟨?_, ?_, ?_⟩
  · intro c now tid a r h
    simp [approveHitl, h]
  · intro c now tid a r td h hf
    simp [approveHitl, h, hf]
  · intro c now now2 tid a a2 r r2 fs hb hl hfs
    have hAllow : c.breaker.callAllowed now = true := by
      rw [Breaker.callAllowed, hb]
    have hfe : fs.isEmpty = false := by
      simpa using hfs
    rw [CacheModel.fullKey] at hl
    constructor
    · simp [approveHitl, cacheGet, cacheSet, CacheModel.fullKey, hAllow, hl, hfe,
        pyTruthy, objSetItem, callAllowed_onSuccess, Except.toOption]
    · simp [approveHitl, cacheGet, cacheSet, CacheModel.fullKey, hAllow, hl, hfe,
        pyTruthy, objSetItem, callAllowed_onSuccess, Except.toOption,
        storeLookup_storeSet_self, setField_isEmpty_false]

/-- C2 amended witness: a cache holding `hitl:t9` with a one-field dict, the
breaker closed; the first `approve_hitl` call returns `True`. -/
theorem approve_hitl_amended_witness :
    (approveHitl { store := [("hitl:t9", .obj [("task_id", .str "t9")], 3600)] }
        0 "t9" true (some "ok")).toOption.map (fun x => x.1) = some true := by
  have h := approve_hitl_amended.2.2
    { store := [("hitl:t9", .obj [("task_id", .str "t9")], 3600)] }
    0 1 "t9" true false (some "ok") none [("task_id", .str "t9")]
    rfl rfl (List.cons_ne_nil _ _)
  exact h.1

/-- Every path through `BaseAgent.run` publishes at least one event (the
HITL notification or a lifecycle event), so an empty publish log means no
agent workflow ran. -/
theorem runAgent_publishes (cfg : AgentConfig)
    (v ex : AgentState → Except String AgentState) (task : AgentTask)
    (now : String) : (runAgent cfg v ex task now).2.published ≠ [] := by
  cases hv : v { task.to_state now with status := AgentStatus.validating.val } with
  | error m => simp [runAgent, hv, finalize]
  | ok st1 =>
      simp only [runAgent, hv]
      split
      · simp [finalize]
      · simp only [check_hitl]
        split
        · split
          · simp
          · split <;> simp [finalize, Effects.merge]
        · split
          · simp_all
          · split <;> simp [finalize, Effects.merge]

/-- C7: `submit` (orchestrator `execute`) with an unregistered agent id
returns a failed state carrying the `Agent not found: {id}` error
(`AgentNotFound`), publishing no event and running no agent workflow (by
`runAgent_publishes`, any run would have published); with a registered agent
whose resolved config's `faces` does not include the caller's face, it
returns a failed state carrying the `Agent not accessible from {face} face`
error (`AccessDenied`), likewise without publishing or running anything. -/
theorem submit_unknown_agent_and_face :
    (∀ (o : Orchestrator) (id : String) (input : JsonV) (t u : Option String)
       (face : Face) (ctx : JsonV) (fid now : String),
       o.agents.lookup id = none →
       Orchestrator.execute o id input t u face ctx fid now =
         ({ task_id := fid, agent_id := id, status := AgentStatus.failed.val
            error := some ("Agent not found: " ++ id), started_at := now }, {}))
    ∧ (∀ (o : Orchestrator) (id : String) (input : JsonV) (t u : Option String)
         (face : Face) (ctx : JsonV) (fid now : String) (agent : AgentImpl)
         (cfg : AgentConfig),
       o.agents.lookup id = some agent →
       o.configs.lookup id = some cfg →
       cfg.is_visible_to face = false →
       Orchestrator.execute o id input t u face ctx fid now =
         ({ task_id := fid, agent_id := id, status := AgentStatus.failed.val
            error := some ("Agent not accessible from " ++ face.val ++ " face")
            started_at := now }, {}))
    ∧ (∀ (cfg : AgentConfig) (v ex : AgentState → Except String AgentState)
         (task : AgentTask) (now : String),
       (runAgent cfg v ex task now).2.published ≠ []) := by
  refine ⟨?_, ?_, runAgent_publishes⟩
  · intro o id input t u face ctx fid now h
    simp [Orchestrator.execute, h]
  · intro o id input t u face ctx fid now agent cfg ha hc hv
    simp [Orchestrator.execute, ha, hc, hv]

/-- C7 witness: an orchestrator with one internal-only agent `a1`: submitting
for id `does-not-exist` yields the `Agent not found` failure with an empty
effect log, and submitting `a1` from the consumer face yields the
`Agent not accessible` failure with an empty effect log. -/
theorem submit_unknown_agent_and_face_witness :
    Orchestrator.execute
        { agents := [("a1",
            { config := { agent_id := "a1", name := "A1", engine := "cross"
                          agent_type := "assistant", faces := [Face.internal]
                          risk_level := .low }
              validate := fun st => .ok st, exec := fun st => .ok st })]
          configs := [("a1",
            { agent_id := "a1", name := "A1", engine := "cross"
              agent_type := "assistant", faces := [Face.internal]
              risk_level := .low })] }
        "does-not-exist" (.obj []) none none .internal (.obj []) "tid1" "T0" =
      ({ task_id := "tid1", agent_id := "does-not-exist"
         status := AgentStatus.failed.val
         error := some "Agent not found: does-not-exist", started_at := "T0" }, {})
    ∧ Orchestrator.execute
        { agents := [("a1",
            { config := { agent_id := "a1", name := "A1", engine := "cross"
                          agent_type := "assistant", faces := [Face.internal]
                          risk_level := .low }
              validate := fun st => .ok st, exec := fun st => .ok st })]
          configs := [("a1",
            { agent_id := "a1", name := "A1", engine := "cross"
              agent_type := "assistant", faces := [Face.internal]
              risk_level := .low })] }
        "a1" (.obj []) none none .consumer (.obj []) "tid2" "T0" =
      ({ task_id := "tid2", agent_id := "a1", status := AgentStatus.failed.val
         error := some "Agent not accessible from consumer face"
         started_at := "T0" }, {}) := by
  refine ⟨submit_unknown_agent_and_face.1
      { agents := [("a1",
          { config := { agent_id := "a1", name := "A1", engine := "cross"
                        agent_type := "assistant", faces := [Face.internal]
                        risk_level := .low }
            validate := fun st => .ok st, exec := fun st => .ok st })]
        configs := [("a1",
          { agent_id := "a1", name := "A1", engine := "cross"
            agent_type := "assistant", faces := [Face.internal]
            risk_level := .low })] }
      "does-not-exist" (.obj []) none none .internal (.obj []) "tid1" "T0" rfl,
    submit_unknown_agent_and_face.2.1
      { agents := [("a1",
          { config := { agent_id := "a1", name := "A1", engine := "cross"
                        agent_type := "assistant", faces := [Face.internal]
                        risk_level := .low }
            validate := fun st => .ok st, exec := fun st => .ok st })]
        configs := [("a1",
          { agent_id := "a1", name := "A1", engine := "cross"
            agent_type := "assistant", faces := [Face.internal]
            risk_level := .low })] }
      "a1" (.obj []) none none .consumer (.obj []) "tid2" "T0" _ _ rfl rfl rfl⟩

/-- C3: the HITL gate in `BaseAgent.run` (`submit`'s workflow), with
`waiting_approval` read as the code's `waiting_hitl` status.  For an agent
whose risk level is high or critical (`requires_hitl`), provided no prior
approval exists (the validator does not set `hitl_approved = True`; it also
does not raise an empty-message exception, which the `if state.get("error")`
truthiness test in `finalize` would misread as success), the returned state
is never `completed`, and whenever validation succeeds without an error it
is exactly `waiting_hitl`.  For an agent whose risk level is low or medium,
the returned state is never `waiting_hitl`, whatever the validator and
executor do. -/
theorem submit_hitl_gate (cfg : AgentConfig)
    (v ex : AgentState → Except String AgentState) (task : AgentTask)
    (now : String)
    (hNoPre : ∀ st1,
      v { task.to_state now with status := AgentStatus.validating.val } = .ok st1 →
      st1.hitl_approved ≠ some true)
    (hMsg : ∀ m,
      v { task.to_state now with status := AgentStatus.validating.val } = .error m →
      m ≠ "") :
    (cfg.requires_hitl = true →
      (runAgent cfg v ex task now).1.status ≠ AgentStatus.completed.val
      ∧ ∀ st1,
          v { task.to_state now with status := AgentStatus.validating.val } = .ok st1 →
          pyTruthyStr st1.error = false →
          (runAgent cfg v ex task now).1.status = AgentStatus.waitingHitl.val)
    ∧ (cfg.requires_hitl = false →
      (runAgent cfg v ex task now).1.status ≠ AgentStatus.waitingHitl.val) := by
  constructor
  · intro hr
    constructor
    · cases hv : v { task.to_state now with status := AgentStatus.validating.val } with
      | error m =>
          have hm : pyTruthyStr (some m) = true := by
            simpa [pyTruthyStr] using hMsg m hv
          simp [runAgent, hv, finalize, hm]
          decide
      | ok st1 =>
          simp only [runAgent, hv]
          cases he : pyTruthyStr st1.error with
          | true =>
              simp [he, finalize]
              decide
          | false =>
              have hna : pyTruthyOptBool st1.hitl_approved = false := by
                have hne := hNoPre st1 hv
                cases h2 : st1.hitl_approved with
                | none => rfl
                | some b =>
                    cases b with
                    | false => rfl
                    | true => exact absurd h2 hne
              simp [he, check_hitl, hr, hna]
              decide
    · intro st1 hv he
      have hna : pyTruthyOptBool st1.hitl_approved = false := by
        have hne := hNoPre st1 hv
        cases h2 : st1.hitl_approved with
        | none => rfl
        | some b =>
            cases b with
            | false => rfl
            | true => exact absurd h2 hne
      simp [runAgent, hv, he, check_hitl, hr, hna]
  · intro hr
    cases hv : v { task.to_state now with status := AgentStatus.validating.val } with
    | error m =>
        simp only [runAgent, hv, finalize]
        split <;> decide
    | ok st1 =>
        simp only [runAgent, hv]
        cases he : pyTruthyStr st1.error with
        | true =>
            simp only [he, if_true, finalize]
            decide
        | false =>
            simp only [he, check_hitl, hr, Bool.false_eq_true, if_false]
            split
            · rename_i hcond
              simp at hcond
            · split <;> (simp only [finalize]; split <;> decide)

/-- C3 witness: a high-risk agent with a pass-through validator pauses at
`waiting_hitl` on submission. -/
theorem submit_hitl_gate_witness :
    (runAgent
        { agent_id := "risk.remediation.v1", name := "Risk Remediation"
          engine := "risk_security", agent_type := "operator"
          faces := [Face.internal], risk_level := RiskLevel.high }
        (fun st => .ok st) (fun st => .ok st)
        { task_id := "t2", agent_id := "risk.remediation.v1", tenant_id := none
          user_id := none, face := Face.internal, input_data := .obj [] }
        "T0").1.status = AgentStatus.waitingHitl.val := by
  have h := submit_hitl_gate
      { agent_id := "risk.remediation.v1", name := "Risk Remediation"
        engine := "risk_security", agent_type := "operator"
        faces := [Face.internal], risk_level := RiskLevel.high }
      (fun st => .ok st) (fun st => .ok st)
      { task_id := "t2", agent_id := "risk.remediation.v1", tenant_id := none
        user_id := none, face := Face.internal, input_data := .obj [] }
      "T0"
      (by
        intro st1 h1
        injection h1 with h2
        rw [← h2]
        decide)
      (by
        intro m h1
        exact Except.noConfusion h1)
  exact (h.1 rfl).2 _ rfl rfl

/-- C1: evaluating the code at the claim's scenario — a high-risk agent task
that pauses for approval.  The returned state is `waiting_hitl`, yet the
workflow's effect log contains no cache write at all (in particular nothing
under `hitl:{taskId}`): `check_hitl`/`run` only publish the notification
event.  Consequently a later `approve_hitl` against a cache that never
received the entry returns `False` — the pause is unresumable, contradicting
the claimed contract that the serialized task is stored under `hitl:{taskId}`
with the approval-SLA TTL so that `resolveApproval` finds it. -/
theorem hitl_pause_writes_no_cache_entry :
    (runAgent
        { agent_id := "risk.remediation.v1", name := "Risk Remediation"
          engine := "risk_security", agent_type := "operator"
          faces := [Face.internal], risk_level := RiskLevel.high }
        (fun st => .ok st) (fun st => .ok st)
        { task_id := "t1", agent_id := "risk.remediation.v1", tenant_id := none
          user_id := none, face := Face.internal, input_data := .obj [] }
        "T0").1.status = AgentStatus.waitingHitl.val
    ∧ (runAgent
        { agent_id := "risk.remediation.v1", name := "Risk Remediation"
          engine := "risk_security", agent_type := "operator"
          faces := [Face.internal], risk_level := RiskLevel.high }
        (fun st => .ok st) (fun st => .ok st)
        { task_id := "t1", agent_id := "risk.remediation.v1", tenant_id := none
          user_id := none, face := Face.internal, input_data := .obj [] }
        "T0").2.cacheWrites = []
    ∧ (approveHitl {} 0 "t1" true none).toOption.map (fun x => x.1) = some false :=
  ⟨rfl, rfl, rfl⟩
